import Mathlib

/-!
Verification of the case scoring and progression rubric of the medannaweb
repository, shallowly embedded in Lean 4.

The repository ships several concatenated revisions of the same modules;
the definitions below embed the latest revision, which is the one the
current application entry point imports:
  - the score aggregator in handleFinishCase (src/index.tsx, second
    revision, around lines 4270-4310);
  - the hint budget tracker (getHintCount / updateHintCount /
    handleRequestHint and the initial-load effect in AppProvider);
  - the streak, progress and leaderboard updater logCaseCompletion
    (src/unnamed/part_000, first copy, around lines 1108-1235), whose
    leaderboard rule is the running average;
  - the EPA evaluation response handling in evaluateChatForEPAs and the
    deterministic avatar fallback findBestFallback
    (src/services/geminiService.ts).

JavaScript numbers are embedded as rationals, integer counters as Int or
Nat, calendar days as Int day indices (consecutive days differ by 1, which
is what the date-string arithmetic of the source computes), and nullable
or absent values as Option.
-/

namespace Medanna

/-- Daily hint quota, src/index.tsx line 1795: const MAX_HINTS = 10. -/
def MAX_HINTS : Int := 10

/-- Entry of DiagnosticCase.potentialDiagnoses (src/services/geminiService.ts). -/
structure Diag where
  diagnosis : String
  isCorrect : Bool
deriving DecidableEq

/-- Multiple-choice question; only the correct-answer index matters to scoring. -/
structure MCQ where
  correctAnswerIndex : Nat
deriving DecidableEq

/-- One scored competency returned by the EPA evaluation adapter
(interface EPAScore in src/services/geminiService.ts). The epa field is a
string in the source, so it is a string here. -/
structure EPAScore where
  epa : String
  score : ℚ
  justification : String
deriving DecidableEq

/-- Fallback value returned by evaluateChatForEPAs when the model response
cannot be parsed (src/services/geminiService.ts lines 383-388). -/
def defaultEPAScores : List EPAScore :=
  [{ epa := "History-taking", score := 0,
     justification := "Evaluation failed due to an AI error." },
   { epa := "Physical Exam", score := 0,
     justification := "Evaluation failed due to an AI error." }]

/-- Shape check applied to the parsed adapter response
(src/services/geminiService.ts line 378): exactly two entries, one for
each of the two fixed competencies. -/
def epaShapeOk (p : List EPAScore) : Bool :=
  p.length == 2
    && (p.find? (fun s => s.epa == "History-taking")).isSome
    && (p.find? (fun s => s.epa == "Physical Exam")).isSome

/-- Response handling of evaluateChatForEPAs
(src/services/geminiService.ts lines 375-389): the parse result is none
when JSON.parse throws, some p when it yields the list p. A failed parse
or a failed shape check falls into the catch block, which returns
defaultEPAScores instead of rethrowing; the function is total, so no
error reaches the case-completion caller. -/
def evaluateChatForEPAs (parsed : Option (List EPAScore)) : List EPAScore :=
  match parsed with
  | none => defaultEPAScores
  | some p => if epaShapeOk p then p else defaultEPAScores

/-- Diagnosis correctness lookup, src/index.tsx line 4277:
currentCase.potentialDiagnoses.find(d => d.diagnosis === selectedDiagnosis)?.isCorrect || false.
The selected diagnosis is Option String because the React state starts as
null; strict equality of a string against null is false. -/
def diagnosisCorrectOf (pot : List Diag) (sel : Option String) : Bool :=
  (((pot.find? (fun d => sel == some d.diagnosis)).map Diag.isCorrect)).getD false

/-- Count of correctly answered MCQs, src/index.tsx lines 4281-4283:
Object.entries(selectedMcqAnswers).filter(([idx, answer]) =>
currentCase.mcqs[parseInt(idx)].correctAnswerIndex === answer).length.
The answers are the entries list of the selection object: pairs of
question index and chosen option index. -/
def mcqCorrectCountOf (mcqs : List MCQ) (answers : List (Nat × Nat)) : Nat :=
  (answers.filter
    (fun p => ((mcqs.get? p.1).map MCQ.correctAnswerIndex) == some p.2)).length

/-- Per-component breakdown stored in CaseResultDetails.scoreBreakdown. -/
structure ScoreBreakdown where
  diagnosis : ℚ
  knowledge : ℚ
  historyTaking : ℚ
  physicalExam : ℚ
deriving DecidableEq

/-- Result record assembled by handleFinishCase (CaseResultDetails in
src/services/supabaseService.ts / src/unnamed/part_000). -/
structure CaseResultDetails where
  diagnosisCorrect : Bool
  mcqCorrectCount : Nat
  mcqTotal : Nat
  epaHistory : ℚ
  epaPhysicalExam : ℚ
  hintPenalty : ℚ
  finalScore : ℚ
  scoreBreakdown : ScoreBreakdown
deriving DecidableEq

/-- Inputs handleFinishCase reads: the current case, the UI selections,
the adapter result and the remaining hint count returned by getHintCount
at finish time. -/
structure FinishInputs where
  potentialDiagnoses : List Diag
  selectedDiagnosis : Option String
  mcqs : List MCQ
  selectedMcqAnswers : List (Nat × Nat)
  epaScores : List EPAScore
  hintRemaining : Int
deriving DecidableEq

/-- Score aggregation of handleFinishCase, src/index.tsx lines 4275-4310,
translated let by let: diagnosis accuracy (4.0, plus the 2.0 knowledge
points redistributed when the case has no MCQs), MCQ knowledge
((correct/total)*2.0 when MCQs exist, else 0), EPA components
((history/10)*2.5 and (physicalExam/10)*1.5), hint penalty
((MAX_HINTS - remaining)*0.5), and the final clamp
Math.max(0, Math.min(10, sum - penalty)). -/
def handleFinishCase (inp : FinishInputs) : CaseResultDetails :=
  let dCorrect := diagnosisCorrectOf inp.potentialDiagnoses inp.selectedDiagnosis
  let diagnosisScore0 : ℚ := if dCorrect then 4 else 0
  let mcqTotal := inp.mcqs.length
  let mcqCorrect := mcqCorrectCountOf inp.mcqs inp.selectedMcqAnswers
  let hasMcqs : Bool := decide (0 < mcqTotal)
  let knowledgeScore : ℚ :=
    if hasMcqs then ((mcqCorrect : ℚ) / (mcqTotal : ℚ)) * 2 else 0
  let diagnosisScore : ℚ := if hasMcqs then diagnosisScore0 else diagnosisScore0 + 2
  let historyTakingAI : ℚ :=
    ((inp.epaScores.find? (fun s => s.epa == "History-taking")).map EPAScore.score).getD 0
  let physicalExamAI : ℚ :=
    ((inp.epaScores.find? (fun s => s.epa == "Physical Exam")).map EPAScore.score).getD 0
  let historyTakingScore : ℚ := (historyTakingAI / 10) * (5 / 2)
  let physicalExamScore : ℚ := (physicalExamAI / 10) * (3 / 2)
  let hintsUsed : Int := MAX_HINTS - inp.hintRemaining
  let hintPenalty : ℚ := (hintsUsed : ℚ) * (1 / 2)
  let rawScore : ℚ :=
    diagnosisScore + knowledgeScore + historyTakingScore + physicalExamScore - hintPenalty
  let finalScore : ℚ := max 0 (min 10 rawScore)
  { diagnosisCorrect := dCorrect
    mcqCorrectCount := mcqCorrect
    mcqTotal := mcqTotal
    epaHistory := historyTakingAI
    epaPhysicalExam := physicalExamAI
    hintPenalty := hintPenalty
    finalScore := finalScore
    scoreBreakdown :=
      { diagnosis := diagnosisScore
        knowledge := knowledgeScore
        historyTaking := historyTakingScore
        physicalExam := physicalExamScore } }

/-- Clamp as the specification writes it: clamp(x, lo, hi). -/
def clamp (x lo hi : ℚ) : ℚ := max lo (min hi x)

/-- Helper: the two competency labels are distinct strings. -/
theorem ht_beq_pe : (("History-taking" : String) == "Physical Exam") = false := by decide

/-- Helper: the competency labels compare equal to themselves. -/
theorem ht_beq_ht : (("History-taking" : String) == "History-taking") = true := by decide

/-- Helper: the two competency labels are distinct strings, reversed. -/
theorem pe_beq_ht : (("Physical Exam" : String) == "History-taking") = false := by decide

/-- Helper: the physical exam label compares equal to itself. -/
theorem pe_beq_pe : (("Physical Exam" : String) == "Physical Exam") = true := by decide

end Medanna

namespace Medanna

/-- Sample finish input: one matching correct diagnosis, one MCQ answered
correctly, both EPA scores present, one hint used. -/
def sampleFinishInputs : FinishInputs :=
  { potentialDiagnoses := [{ diagnosis := "Influenza", isCorrect := true }]
    selectedDiagnosis := some "Influenza"
    mcqs := [{ correctAnswerIndex := 2 }]
    selectedMcqAnswers := [(0, 2)]
    epaScores :=
      [{ epa := "History-taking", score := 8, justification := "good" },
       { epa := "Physical Exam", score := 4, justification := "fair" }]
    hintRemaining := 9 }

/-- Zero-MCQ finish input with a correct diagnosis, perfect EPA scores and
no hints used: it realises the 10-point maximum. -/
def perfectNoMcqInputs : FinishInputs :=
  { potentialDiagnoses := [{ diagnosis := "Influenza", isCorrect := true }]
    selectedDiagnosis := some "Influenza"
    mcqs := []
    selectedMcqAnswers := []
    epaScores :=
      [{ epa := "History-taking", score := 10, justification := "full" },
       { epa := "Physical Exam", score := 10, justification := "full" }]
    hintRemaining := 10 }

/-- C1. For every completed case with hintsUsed ≥ 0, the final score equals
clamp(diagnosis + knowledge + historyTaking + physicalExam − hintsUsed*0.5,
0, 10), where hintsUsed = MAX_HINTS minus the remaining hint count at
finish time, and the final score lies in [0, 10]. -/
theorem final_score_clamp_spec (inp : FinishInputs)
    (h : 0 ≤ MAX_HINTS - inp.hintRemaining) :
    (handleFinishCase inp).finalScore =
      clamp ((handleFinishCase inp).scoreBreakdown.diagnosis
        + (handleFinishCase inp).scoreBreakdown.knowledge
        + (handleFinishCase inp).scoreBreakdown.historyTaking
        + (handleFinishCase inp).scoreBreakdown.physicalExam
        - ((MAX_HINTS - inp.hintRemaining : Int) : ℚ) * (1 / 2)) 0 10
    ∧ 0 ≤ (handleFinishCase inp).finalScore
    ∧ (handleFinishCase inp).finalScore ≤ 10 := by
  refine ⟨rfl, le_max_left 0 _, max_le (by norm_num) (min_le_left 10 _)⟩

/-- Witness for final_score_clamp_spec at the sample input, where the
hypothesis hintsUsed ≥ 0 is discharged concretely. -/
theorem final_score_clamp_spec_witness :
    0 ≤ MAX_HINTS - sampleFinishInputs.hintRemaining
    ∧ ((handleFinishCase sampleFinishInputs).finalScore =
        clamp ((handleFinishCase sampleFinishInputs).scoreBreakdown.diagnosis
          + (handleFinishCase sampleFinishInputs).scoreBreakdown.knowledge
          + (handleFinishCase sampleFinishInputs).scoreBreakdown.historyTaking
          + (handleFinishCase sampleFinishInputs).scoreBreakdown.physicalExam
          - ((MAX_HINTS - sampleFinishInputs.hintRemaining : Int) : ℚ) * (1 / 2)) 0 10
        ∧ 0 ≤ (handleFinishCase sampleFinishInputs).finalScore
        ∧ (handleFinishCase sampleFinishInputs).finalScore ≤ 10) :=
  ⟨by decide, final_score_clamp_spec sampleFinishInputs (by decide)⟩

/-- C2. With zero MCQs the knowledge component is 0 regardless of the
count of correct answers, the diagnosis line absorbs the 2.0 knowledge
points so its maximum is 6.0, reached exactly when the diagnosis is
correct, and a 10-point total remains achievable (realised by
perfectNoMcqInputs); with at least one MCQ the knowledge component is
(correct/total)*2.0 and the diagnosis line is 4.0 exactly when the
diagnosis is correct. -/
theorem zero_mcq_redistribution (inp : FinishInputs) :
    (inp.mcqs.length = 0 →
      (handleFinishCase inp).scoreBreakdown.knowledge = 0
      ∧ ((handleFinishCase inp).scoreBreakdown.diagnosis = 6
          ↔ (handleFinishCase inp).diagnosisCorrect = true)
      ∧ (handleFinishCase inp).scoreBreakdown.diagnosis ≤ 6)
    ∧ (0 < inp.mcqs.length →
      (handleFinishCase inp).scoreBreakdown.knowledge =
        ((mcqCorrectCountOf inp.mcqs inp.selectedMcqAnswers : ℚ)
          / (inp.mcqs.length : ℚ)) * 2
      ∧ ((handleFinishCase inp).scoreBreakdown.diagnosis = 4
          ↔ (handleFinishCase inp).diagnosisCorrect = true))
    ∧ (handleFinishCase perfectNoMcqInputs).finalScore = 10 := by
  refine ⟨?_, ?_,
    by norm_num [handleFinishCase, perfectNoMcqInputs, diagnosisCorrectOf,
      mcqCorrectCountOf, List.find?, MAX_HINTS, ht_beq_pe, ht_beq_ht, pe_beq_ht, pe_beq_pe]⟩
  · intro h0
    simp only [handleFinishCase, h0, decide_eq_true_eq]
    norm_num
    cases hd : diagnosisCorrectOf inp.potentialDiagnoses inp.selectedDiagnosis <;>
      simp [hd] <;> norm_num
  · intro hpos
    simp only [handleFinishCase, decide_eq_true_eq]
    rw [if_pos hpos, if_pos hpos]
    refine ⟨rfl, ?_⟩
    cases hd : diagnosisCorrectOf inp.potentialDiagnoses inp.selectedDiagnosis <;>
      simp [hd]

/-- Witness for zero_mcq_redistribution: both branch hypotheses discharged
concretely, the zero-MCQ branch at perfectNoMcqInputs and the MCQ branch
at sampleFinishInputs. -/
theorem zero_mcq_redistribution_witness :
    ((handleFinishCase perfectNoMcqInputs).scoreBreakdown.knowledge = 0
      ∧ ((handleFinishCase perfectNoMcqInputs).scoreBreakdown.diagnosis = 6
          ↔ (handleFinishCase perfectNoMcqInputs).diagnosisCorrect = true)
      ∧ (handleFinishCase perfectNoMcqInputs).scoreBreakdown.diagnosis ≤ 6)
    ∧ ((handleFinishCase sampleFinishInputs).scoreBreakdown.knowledge =
        ((mcqCorrectCountOf sampleFinishInputs.mcqs
            sampleFinishInputs.selectedMcqAnswers : ℚ)
          / (sampleFinishInputs.mcqs.length : ℚ)) * 2
      ∧ ((handleFinishCase sampleFinishInputs).scoreBreakdown.diagnosis = 4
          ↔ (handleFinishCase sampleFinishInputs).diagnosisCorrect = true)) :=
  ⟨(zero_mcq_redistribution perfectNoMcqInputs).1 (by decide),
   (zero_mcq_redistribution sampleFinishInputs).2.1 (by decide)⟩

/-- Helper: the mismatched selection labels compare unequal. -/
theorem cold_beq_flu : (("Common Cold" : String) == "Influenza") = false := by
  decide

/-- Finish input whose selected diagnosis matches no entry of
potentialDiagnoses, for a case with zero MCQs. -/
def noMatchInputs : FinishInputs :=
  { potentialDiagnoses := [{ diagnosis := "Influenza", isCorrect := true }]
    selectedDiagnosis := some "Common Cold"
    mcqs := []
    selectedMcqAnswers := []
    epaScores := []
    hintRemaining := 10 }

/-- Finish input whose selected diagnosis matches no entry, for a case
with one MCQ. -/
def noMatchMcqInputs : FinishInputs :=
  { potentialDiagnoses := [{ diagnosis := "Influenza", isCorrect := true }]
    selectedDiagnosis := some "Measles"
    mcqs := [{ correctAnswerIndex := 0 }]
    selectedMcqAnswers := []
    epaScores := []
    hintRemaining := 10 }

/-- C9 counterexample. At a zero-MCQ case whose selected diagnosis matches
no entry, diagnosisCorrect is indeed false, but the diagnosis line of the
breakdown carries the redistributed 2.0 knowledge points rather than 0,
and those 2 points reach the final score. -/
theorem unmatched_diagnosis_counterexample :
    (noMatchInputs.potentialDiagnoses.find?
      (fun d => noMatchInputs.selectedDiagnosis == some d.diagnosis)) = none
    ∧ (handleFinishCase noMatchInputs).diagnosisCorrect = false
    ∧ ¬ (handleFinishCase noMatchInputs).scoreBreakdown.diagnosis = 0
    ∧ (handleFinishCase noMatchInputs).finalScore = 2 := by
  refine ⟨by simp [noMatchInputs, List.find?, cold_beq_flu], ?_, ?_, ?_⟩ <;>
    norm_num [handleFinishCase, noMatchInputs, diagnosisCorrectOf,
      mcqCorrectCountOf, List.find?, MAX_HINTS, cold_beq_flu]

/-- C9 amended. For every selected diagnosis matching no entry of
potentialDiagnoses (the unselected null case included), scoring treats the
diagnosis as incorrect without failing: diagnosisCorrect is false, and the
diagnosis line of the breakdown is 0 when the case has MCQs, and exactly
the 2.0 redistributed knowledge points when the case has none. -/
theorem unmatched_diagnosis_amended (inp : FinishInputs)
    (h : inp.potentialDiagnoses.find?
      (fun d => inp.selectedDiagnosis == some d.diagnosis) = none) :
    (handleFinishCase inp).diagnosisCorrect = false
    ∧ (handleFinishCase inp).scoreBreakdown.diagnosis =
        (if inp.mcqs.length = 0 then 2 else 0) := by
  have hd : diagnosisCorrectOf inp.potentialDiagnoses inp.selectedDiagnosis = false := by
    simp [diagnosisCorrectOf, h]
  refine ⟨by simp [handleFinishCase, hd], ?_⟩
  rcases Nat.eq_zero_or_pos inp.mcqs.length with h0 | h0
  · simp [handleFinishCase, hd, h0]
  · simp [handleFinishCase, hd, h0, Nat.pos_iff_ne_zero.mp h0]

/-- Witness for unmatched_diagnosis_amended at a one-MCQ input with a
non-matching selection. -/
theorem unmatched_diagnosis_amended_witness :
    (handleFinishCase noMatchMcqInputs).diagnosisCorrect = false
    ∧ (handleFinishCase noMatchMcqInputs).scoreBreakdown.diagnosis =
        (if noMatchMcqInputs.mcqs.length = 0 then 2 else 0) :=
  unmatched_diagnosis_amended noMatchMcqInputs (by decide)

/-- C8. An EPA adapter response that cannot be parsed into exactly two
scored competencies, one History-taking and one Physical Exam, makes
evaluateChatForEPAs return the default pair: both competencies present
with score 0 and a justification noting the evaluation failure. The Lean
function is total, reflecting that the catch block swallows the parse
error instead of rethrowing it to the case-completion caller. -/
theorem epa_eval_degrades_gracefully (parsed : Option (List EPAScore)) :
    (parsed = none → evaluateChatForEPAs parsed = defaultEPAScores)
    ∧ (∀ p, parsed = some p → epaShapeOk p = false →
        evaluateChatForEPAs parsed = defaultEPAScores)
    ∧ ((defaultEPAScores.find?
        (fun s => s.epa == "History-taking")).map EPAScore.score).getD 0 = 0
    ∧ ((defaultEPAScores.find?
        (fun s => s.epa == "Physical Exam")).map EPAScore.score).getD 0 = 0
    ∧ (∀ e ∈ defaultEPAScores,
        e.justification = "Evaluation failed due to an AI error.") := by
  refine ⟨fun h => by simp [h, evaluateChatForEPAs],
    fun p hp hbad => by simp [hp, evaluateChatForEPAs, hbad],
    by simp [defaultEPAScores, List.find?, ht_beq_ht],
    by simp [defaultEPAScores, List.find?, ht_beq_pe, pe_beq_pe],
    by simp [defaultEPAScores]⟩

/-- Witness for epa_eval_degrades_gracefully at two concrete malformed
responses: an unparseable response (none) and a parsed response with the
wrong shape (an empty list). -/
theorem epa_eval_degrades_gracefully_witness :
    evaluateChatForEPAs (some []) = defaultEPAScores
    ∧ evaluateChatForEPAs none = defaultEPAScores :=
  ⟨(epa_eval_degrades_gracefully (some [])).2.1 [] rfl (by decide),
   (epa_eval_degrades_gracefully none).1 rfl⟩

/-- Row of the streaks table (src/unnamed/part_000). The column
last_active_day is nullable in the database, hence Option; days are Int
day indices with yesterday = today - 1, which is exactly what the
UTC-normalised date-string arithmetic of the source computes. -/
structure StreakRow where
  current_streak : Int
  max_streak : Int
  last_active_day : Option Int
deriving DecidableEq

/-- New value of current_streak computed by logCaseCompletion
(src/unnamed/part_000 lines 1154-1176): default 1; unchanged when the
last active day is today; incremented when it is yesterday; otherwise the
streak is broken and stays at the default 1. A missing row or a null
last_active_day also gives the default 1. -/
def streakNewCurrent (prior : Option StreakRow) (today : Int) : Int :=
  match prior with
  | none => 1
  | some s =>
    match s.last_active_day with
    | none => 1
    | some last =>
      if last = today then s.current_streak
      else if last = today - 1 then s.current_streak + 1
      else 1

/-- Streak upsert prepared by logCaseCompletion (src/unnamed/part_000
lines 1154-1188): the new current streak, the previous max raised to the
new current when exceeded, and last_active_day set to today. -/
def logCaseCompletionStreak (prior : Option StreakRow) (today : Int) : StreakRow :=
  let newCurrent := streakNewCurrent prior today
  let priorMax := (prior.map StreakRow.max_streak).getD 0
  let newMax := if priorMax < newCurrent then newCurrent else priorMax
  { current_streak := newCurrent
    max_streak := newMax
    last_active_day := some today }

/-- Sequence of completions: fold of the streak update over a list of
completion days, starting from a prior stored row (or none). -/
def runStreakCompletions (prior : Option StreakRow) (days : List Int) : Option StreakRow :=
  days.foldl (fun st d => some (logCaseCompletionStreak st d)) prior

/-- C3. The streak update is the claimed state machine over
last_active_day versus today: no prior record gives current_streak 1; a
last active day equal to today leaves it unchanged; equal to yesterday
increments it; earlier than yesterday resets it to 1; and last_active_day
is always set to today. -/
theorem streak_state_machine (prior : Option StreakRow) (today : Int) :
    (prior = none → (logCaseCompletionStreak prior today).current_streak = 1)
    ∧ (∀ s, prior = some s →
        (s.last_active_day = some today →
          (logCaseCompletionStreak prior today).current_streak = s.current_streak)
        ∧ (s.last_active_day = some (today - 1) →
          (logCaseCompletionStreak prior today).current_streak = s.current_streak + 1)
        ∧ (∀ d, s.last_active_day = some d → d < today - 1 →
          (logCaseCompletionStreak prior today).current_streak = 1))
    ∧ (logCaseCompletionStreak prior today).last_active_day = some today := by
  refine ⟨fun h => by simp [logCaseCompletionStreak, streakNewCurrent, h], ?_, rfl⟩
  intro s hs
  refine ⟨fun hlast => ?_, fun hlast => ?_, fun d hlast hgap => ?_⟩
  · simp [logCaseCompletionStreak, streakNewCurrent, hs, hlast]
  · have hne : today - 1 ≠ today := by omega
    simp [logCaseCompletionStreak, streakNewCurrent, hs, hlast, hne]
  · have hne1 : d ≠ today := by omega
    have hne2 : d ≠ today - 1 := by omega
    simp [logCaseCompletionStreak, streakNewCurrent, hs, hlast, hne1, hne2]

/-- Witness for streak_state_machine: each branch hypothesis discharged at
a concrete prior row and day 10; no record, same day, yesterday, and a gap
of two days. -/
theorem streak_state_machine_witness :
    (logCaseCompletionStreak none 10).current_streak = 1
    ∧ (logCaseCompletionStreak (some ⟨4, 7, some 10⟩) 10).current_streak = 4
    ∧ (logCaseCompletionStreak (some ⟨4, 7, some 9⟩) 10).current_streak = 5
    ∧ (logCaseCompletionStreak (some ⟨4, 7, some 8⟩) 10).current_streak = 1
    ∧ (logCaseCompletionStreak (some ⟨4, 7, some 8⟩) 10).last_active_day = some 10 :=
  ⟨(streak_state_machine none 10).1 rfl,
   ((streak_state_machine (some ⟨4, 7, some 10⟩) 10).2.1 ⟨4, 7, some 10⟩ rfl).1 rfl,
   ((streak_state_machine (some ⟨4, 7, some 9⟩) 10).2.1 ⟨4, 7, some 9⟩ rfl).2.1 (by decide),
   ((streak_state_machine (some ⟨4, 7, some 8⟩) 10).2.1 ⟨4, 7, some 8⟩ rfl).2.2 8 rfl
     (by decide),
   (streak_state_machine (some ⟨4, 7, some 8⟩) 10).2.2⟩

/-- C4. After every streak update the stored max_streak is
max(previous max_streak, new current_streak), hence at least the new
current_streak, and across any sequence of completions the stored
max_streak never decreases. -/
theorem max_streak_monotone (prior : Option StreakRow) (today : Int) (days : List Int) :
    (logCaseCompletionStreak prior today).current_streak ≤
      (logCaseCompletionStreak prior today).max_streak
    ∧ (logCaseCompletionStreak prior today).max_streak =
        max ((prior.map StreakRow.max_streak).getD 0)
          (logCaseCompletionStreak prior today).current_streak
    ∧ ((prior.map StreakRow.max_streak).getD 0 ≤
        ((runStreakCompletions prior days).map StreakRow.max_streak).getD 0) := by
  refine ⟨?_, ?_, ?_⟩
  · simp only [logCaseCompletionStreak]
    split <;> omega
  · simp only [logCaseCompletionStreak]
    split <;> [exact (max_eq_right (by omega)).symm ; exact (max_eq_left (by omega)).symm]
  · induction days generalizing prior with
    | nil => exact le_refl _
    | cons d ds ih =>
      refine le_trans ?_ (ih (some (logCaseCompletionStreak prior d)))
      simp [logCaseCompletionStreak]
      split <;> omega

/-- Leaderboard update rule of logCaseCompletion (src/unnamed/part_000
lines 1193-1196): new average = (old average times the completed count
before this case, plus the new final score), divided by that count plus
one. A missing leaderboard row reads as average 0, and a missing progress
row as count 0, via the JavaScript default of || 0. -/
def leaderboardNewAverage (oldAvg : ℚ) (priorCompleted : Nat) (score : ℚ) : ℚ :=
  (oldAvg * priorCompleted + score) / (priorCompleted + 1)

/-- Joint progress-and-leaderboard step of logCaseCompletion: the progress
counter goes up by one (src/unnamed/part_000 lines 1146-1151) and the
leaderboard row gets the new running average. State is the pair
(completed count, stored leaderboard score). -/
def completionFold (st : Nat × ℚ) (score : ℚ) : Nat × ℚ :=
  (st.1 + 1, leaderboardNewAverage st.2 st.1 score)

/-- State after a sequence of completions with the given final scores, for
a user starting with no progress and no leaderboard row (both read as 0). -/
def runCompletions (scores : List ℚ) : Nat × ℚ :=
  scores.foldl completionFold (0, 0)

/-- Helper invariant for the running average: starting the fold at count n
and average a, the final count adds the list length and the final average
times the final count equals a*n plus the sum of the scores. -/
theorem completionFold_invariant (scores : List ℚ) :
    ∀ (n : Nat) (a : ℚ),
      (scores.foldl completionFold (n, a)).1 = n + scores.length
      ∧ (scores.foldl completionFold (n, a)).2 * ((n : ℚ) + scores.length) =
          a * n + scores.sum := by
  induction scores with
  | nil => intro n a; simp
  | cons s t ih =>
    intro n a
    have hstep : completionFold (n, a) s = (n + 1, (a * n + s) / ((n : ℚ) + 1)) := by
      simp [completionFold, leaderboardNewAverage]
    rw [List.foldl_cons, hstep]
    obtain ⟨h1, h2⟩ := ih (n + 1) ((a * n + s) / ((n : ℚ) + 1))
    refine ⟨by simp only [List.length_cons]; omega, ?_⟩
    have hcast : ((n + 1 : Nat) : ℚ) + (t.length : ℚ) = (n : ℚ) + ((s :: t).length : ℚ) := by
      simp only [List.length_cons]; push_cast; ring
    have hne : ((n : ℚ) + 1) ≠ 0 := by positivity
    have h3 : (a * n + s) / ((n : ℚ) + 1) * ((n + 1 : Nat) : ℚ) = a * n + s := by
      push_cast
      field_simp
    calc (t.foldl completionFold (n + 1, (a * n + s) / ((n : ℚ) + 1))).2 *
          ((n : ℚ) + ((s :: t).length : ℚ))
        = (t.foldl completionFold (n + 1, (a * n + s) / ((n : ℚ) + 1))).2 *
          (((n + 1 : Nat) : ℚ) + (t.length : ℚ)) := by rw [hcast]
      _ = (a * n + s) / ((n : ℚ) + 1) * ((n + 1 : Nat) : ℚ) + t.sum := h2
      _ = a * n + s + t.sum := by rw [h3]
      _ = a * n + (s :: t).sum := by simp [List.sum_cons]; ring

/-- C5. Each completion updates the leaderboard score by
new_avg = (old_avg * priorCompletedCount + finalScore) / (priorCompletedCount + 1),
and consequently after any nonempty sequence of completions the stored
score is the arithmetic mean of all recorded final scores, while the
progress counter equals their number. -/
theorem leaderboard_running_average (scores : List ℚ) (hne : scores ≠ []) :
    (∀ (oldAvg sc : ℚ) (n : Nat),
      completionFold (n, oldAvg) sc =
        (n + 1, (oldAvg * n + sc) / ((n : ℚ) + 1)))
    ∧ (runCompletions scores).1 = scores.length
    ∧ (runCompletions scores).2 = scores.sum / (scores.length : ℚ) := by
  refine ⟨fun oldAvg sc n => by simp [completionFold, leaderboardNewAverage], ?_, ?_⟩
  · simpa using (completionFold_invariant scores 0 0).1
  · have h := (completionFold_invariant scores 0 0).2
    have hlen : (scores.length : ℚ) ≠ 0 := by
      simpa using fun hc => hne (List.length_eq_zero.mp hc)
    rw [eq_div_iff hlen]
    simpa using h

/-- Witness for leaderboard_running_average at the concrete score sequence
[7, 9]: two completions, stored average 8. -/
theorem leaderboard_running_average_witness :
    (runCompletions [7, 9]).1 = 2 ∧ (runCompletions [7, 9]).2 = 8 := by
  have h := leaderboard_running_average [7, 9] (by decide)
  refine ⟨h.2.1, ?_⟩
  rw [h.2.2]
  norm_num

/-- Value stored under the hint storage key in localStorage
(src/index.tsx): a count and the calendar day it applies to. Days are Int
day indices as for streaks. -/
structure HintStorage where
  count : Int
  date : Int
deriving DecidableEq

/-- Hint-related state of the provider: the React hintCount state and the
persisted localStorage record (none when nothing is stored). -/
structure HintState where
  hintCount : Int
  storage : Option HintStorage
deriving DecidableEq

/-- updateHintCount, src/index.tsx lines 2309-2313: sets the in-memory
count and persists the pair of the new count and today under the storage
key. -/
def updateHintCount (newCount : Int) (today : Int) : HintState :=
  { hintCount := newCount, storage := some { count := newCount, date := today } }

/-- Outcome of one hint request, naming the branch of handleRequestHint
that was taken: the three guard refusals in the order of the short-circuit
disjunction, the catch branch of a failed generation, and the successful
delivery. -/
inductive HintOutcome
  | noActiveCase
  | budgetExhausted
  | alreadyGenerating
  | generationFailed
  | hintDelivered
deriving DecidableEq

/-- handleRequestHint, src/index.tsx lines 4246-4258: the guard
(!currentCase || hintCount <= 0 || isGeneratingHint) returns without
consuming anything; otherwise a hint is generated (genOk tells whether the
external call succeeded) and only on success is updateHintCount called
with hintCount - 1; the catch branch changes no hint state. -/
def handleRequestHint (hasCase busy genOk : Bool) (st : HintState) (today : Int) :
    HintOutcome × HintState :=
  if hasCase = false then (HintOutcome.noActiveCase, st)
  else if st.hintCount ≤ 0 then (HintOutcome.budgetExhausted, st)
  else if busy then (HintOutcome.alreadyGenerating, st)
  else if genOk then (HintOutcome.hintDelivered, updateHintCount (st.hintCount - 1) today)
  else (HintOutcome.generationFailed, st)

/-- Iterated successful hint consumption: n requests in a row with an
active case, no request in flight and a succeeding generator. -/
def consumeHints : Nat → HintState → Int → HintState
  | 0, st, _ => st
  | n + 1, st, today => consumeHints n (handleRequestHint true false true st today).2 today

/-- Fresh hint state at the start of a day: MAX_HINTS in memory and
persisted for today, as written by the initial-load effect. -/
def freshHintState (today : Int) : HintState :=
  { hintCount := MAX_HINTS, storage := some { count := MAX_HINTS, date := today } }

/-- C6. With an active case and no request in flight: a request at
remaining count 0 is refused as budget exhausted and changes neither the
in-memory count nor the stored record; a request at a positive count
delivers, decrements by exactly 1, persists the decremented value against
today, and never drops below 0; and after MAX_HINTS consecutive
successful consumptions from a fresh day state the count is 0, the stored
record is 0 for today, and the next request is refused as budget
exhausted leaving the stored count at 0. -/
theorem hint_budget_contract (st : HintState) (today : Int) :
    (st.hintCount = 0 →
      handleRequestHint true false true st today = (HintOutcome.budgetExhausted, st))
    ∧ (0 < st.hintCount →
      handleRequestHint true false true st today =
        (HintOutcome.hintDelivered,
          { hintCount := st.hintCount - 1,
            storage := some { count := st.hintCount - 1, date := today } })
      ∧ 0 ≤ st.hintCount - 1)
    ∧ consumeHints 10 (freshHintState today) today =
        { hintCount := 0, storage := some { count := 0, date := today } }
    ∧ handleRequestHint true false true
        { hintCount := 0, storage := some { count := 0, date := today } } today =
      (HintOutcome.budgetExhausted,
        { hintCount := 0, storage := some { count := 0, date := today } }) := by
  refine ⟨fun h0 => ?_, fun hpos => ⟨?_, by omega⟩, ?_, ?_⟩
  · simp [handleRequestHint, h0]
  · have hng : ¬ st.hintCount ≤ 0 := by omega
    simp [handleRequestHint, hng, updateHintCount]
  · rfl
  · simp [handleRequestHint]

/-- Witness for hint_budget_contract: the exhausted branch at count 0 and
the consuming branch at count 3, both on day 5. -/
theorem hint_budget_contract_witness :
    handleRequestHint true false true
        { hintCount := 0, storage := some { count := 0, date := 5 } } 5 =
      (HintOutcome.budgetExhausted,
        { hintCount := 0, storage := some { count := 0, date := 5 } })
    ∧ handleRequestHint true false true
        { hintCount := 3, storage := some { count := 3, date := 5 } } 5 =
      (HintOutcome.hintDelivered,
        { hintCount := 2, storage := some { count := 2, date := 5 } }) :=
  ⟨(hint_budget_contract { hintCount := 0, storage := some { count := 0, date := 5 } } 5).1
      rfl,
   ((hint_budget_contract { hintCount := 3, storage := some { count := 3, date := 5 } } 5).2.1
      (by decide)).1⟩

/-- getHintCount, src/index.tsx lines 2058-2068, as a read returning the
value and the storage afterwards. The function body only reads
localStorage (getItem), so the storage component is returned unchanged:
stored record for today gives its count, anything else (a different day or
no record) gives MAX_HINTS without writing the reset back. -/
def getHintCountRead (stored : Option HintStorage) (today : Int) : Int × Option HintStorage :=
  match stored with
  | some s => (if s.date = today then s.count else MAX_HINTS, stored)
  | none => (MAX_HINTS, stored)

/-- Initial-load hint handling in the AppProvider effect of the first
revision, src/index.tsx lines 370-378: a stored record for today installs
its count in memory; a record for a different day, or no record, leaves
the in-memory count at its initial MAX_HINTS and persists the pair of
MAX_HINTS and today. The current revision replaced this with
setHintCount(getHintCount()) at line 2152, which performs no write at
all. -/
def loadHintUsage (stored : Option HintStorage) (today : Int) : Int × Option HintStorage :=
  match stored with
  | some s =>
    if s.date = today then (s.count, some s)
    else (MAX_HINTS, some { count := MAX_HINTS, date := today })
  | none => (MAX_HINTS, some { count := MAX_HINTS, date := today })

/-- C7 counterexample. A getHintCount read on day 6 of a record stored for
day 5 returns MAX_HINTS, but the stored record is not reset: storage
still holds the day-5 record, not the claimed pair of MAX_HINTS and
today. -/
theorem hint_rollover_counterexample :
    (getHintCountRead (some { count := 3, date := 5 }) 6).1 = MAX_HINTS
    ∧ ¬ (getHintCountRead (some { count := 3, date := 5 }) 6).2 =
        some { count := MAX_HINTS, date := 6 } := by
  refine ⟨rfl, by decide⟩

/-- C7 amended. A getHintCount read on a date different from the stored
date (or with nothing stored) returns MAX_HINTS but leaves storage
untouched; a read on the stored date returns the stored count unchanged.
Only the one-time initial-load read resets storage to the pair of
MAX_HINTS and today on a date mismatch or a missing record, before the
in-memory count settles at MAX_HINTS. -/
theorem hint_rollover_amended (stored : Option HintStorage) (today : Int) :
    (∀ s, stored = some s → ¬ s.date = today →
      getHintCountRead stored today = (MAX_HINTS, stored)
      ∧ loadHintUsage stored today = (MAX_HINTS, some { count := MAX_HINTS, date := today }))
    ∧ (∀ s, stored = some s → s.date = today →
      getHintCountRead stored today = (s.count, stored)
      ∧ loadHintUsage stored today = (s.count, some s))
    ∧ (stored = none →
      getHintCountRead stored today = (MAX_HINTS, none)
      ∧ loadHintUsage stored today = (MAX_HINTS, some { count := MAX_HINTS, date := today })) := by
  refine ⟨fun s hs hne => ?_, fun s hs heq => ?_, fun hn => ?_⟩
  · subst hs; simp [getHintCountRead, loadHintUsage, hne]
  · subst hs; simp [getHintCountRead, loadHintUsage, heq]
  · subst hn; simp [getHintCountRead, loadHintUsage]

/-- Witness for hint_rollover_amended: all three branches discharged at
concrete storage contents, a day-5 record read on day 6, the same record
read on day 5, and an empty storage read on day 6. -/
theorem hint_rollover_amended_witness :
    (getHintCountRead (some { count := 3, date := 5 }) 6 = (MAX_HINTS, some { count := 3, date := 5 })
      ∧ loadHintUsage (some { count := 3, date := 5 }) 6 =
          (MAX_HINTS, some { count := MAX_HINTS, date := 6 }))
    ∧ (getHintCountRead (some { count := 3, date := 5 }) 5 = (3, some { count := 3, date := 5 })
      ∧ loadHintUsage (some { count := 3, date := 5 }) 5 = (3, some { count := 3, date := 5 }))
    ∧ (getHintCountRead none 6 = (MAX_HINTS, none)
      ∧ loadHintUsage none 6 = (MAX_HINTS, some { count := MAX_HINTS, date := 6 })) :=
  ⟨(hint_rollover_amended (some { count := 3, date := 5 }) 6).1
      { count := 3, date := 5 } rfl (by decide),
   (hint_rollover_amended (some { count := 3, date := 5 }) 5).2.1
      { count := 3, date := 5 } rfl rfl,
   (hint_rollover_amended none 6).2.2 rfl⟩

/-- Patient gender as typed in DiagnosticCase.patientProfile
(src/services/geminiService.ts line 51). -/
inductive Gender
  | male
  | female
  | other
deriving DecidableEq

/-- Entry of AVATAR_DATA (src/services/geminiService.ts lines 396-417):
gender, inclusive age range, and the idle and talking video ids. -/
structure AvatarDatum where
  key : String
  gender : Gender
  ageLo : ℚ
  ageHi : ℚ
  idle : String
  talking : String
deriving DecidableEq

/-- AVATAR_DATA table, src/services/geminiService.ts lines 406-417, in
source order. -/
def AVATAR_DATA : List AvatarDatum :=
  [{ key := "old_woman", gender := Gender.female, ageLo := 60, ageHi := 99,
     idle := "68948ea5aa43dddb5c4b08c4", talking := "68948ea7aa43dddb5c4b08d8" },
   { key := "old_man", gender := Gender.male, ageLo := 60, ageHi := 99,
     idle := "68948e058d992eda26aeb7fe", talking := "68948ea4aa43dddb5c4b08a2" },
   { key := "middle_aged_man", gender := Gender.male, ageLo := 45, ageHi := 60,
     idle := "68948e058d992eda26aeb7fe", talking := "68948e5bbcf5dc9e17266b7e" },
   { key := "man_30s_40s", gender := Gender.male, ageLo := 30, ageHi := 45,
     idle := "68948da7aa43dddb5c4af70c", talking := "68948dfabcf5dc9e172664cf" },
   { key := "man_20s", gender := Gender.male, ageLo := 23, ageHi := 30,
     idle := "68948da5aa43dddb5c4af6e1", talking := "68948df28d992eda26aeb624" },
   { key := "lady_30s_40s", gender := Gender.female, ageLo := 30, ageHi := 45,
     idle := "68948d33bcf5dc9e172655ec", talking := "68948d9eaa43dddb5c4af667" },
   { key := "lady_20s", gender := Gender.female, ageLo := 23, ageHi := 30,
     idle := "68948d0aaa43dddb5c4aeb10", talking := "68948d98aa43dddb5c4af5ff" },
   { key := "young_female", gender := Gender.female, ageLo := 7, ageHi := 22,
     idle := "68948d098d992eda26aea4c2", talking := "68948d09bcf5dc9e172652f0" },
   { key := "adolescent_boy", gender := Gender.male, ageLo := 15, ageHi := 22,
     idle := "68948d098d992eda26aea4c2", talking := "68948d098d992eda26aea4b2" },
   { key := "young_boy", gender := Gender.male, ageLo := 7, ageHi := 15,
     idle := "68948d0aaa43dddb5c4aeae7", talking := "68948d098d992eda26aea4c4" }]

/-- Gender admissibility used by both filters of findBestFallback:
avatar.gender === gender || gender === Other. -/
def genderAdmissible (g : Gender) (ag : Gender) : Bool :=
  ag == g || g == Gender.other

/-- Age-range candidate filter of findBestFallback
(src/services/geminiService.ts lines 425-429). -/
def fallbackCandidates (age : ℚ) (g : Gender) : List AvatarDatum :=
  AVATAR_DATA.filter
    (fun a => genderAdmissible g a.gender && decide (a.ageLo ≤ age) && decide (age ≤ a.ageHi))

/-- One step of the smallest-age-difference loop of findBestFallback
(src/services/geminiService.ts lines 439-448): the accumulator holds the
minimum difference so far with its avatar, none standing for the initial
Infinity, below which every difference falls; strict comparison keeps the
earlier avatar on ties. -/
def fallbackStep (age : ℚ) (g : Gender) (acc : Option (ℚ × AvatarDatum))
    (a : AvatarDatum) : Option (ℚ × AvatarDatum) :=
  if genderAdmissible g a.gender then
    let diff := min |age - a.ageLo| |age - a.ageHi|
    match acc with
    | none => some (diff, a)
    | some m => if diff < m.1 then some (diff, a) else acc
  else acc

/-- Smallest-age-difference search over the whole table. -/
def bestByAgeDiff (age : ℚ) (g : Gender) : Option AvatarDatum :=
  (AVATAR_DATA.foldl (fallbackStep age g) none).map Prod.snd

/-- Best-match selection of findBestFallback: first an exact gender match
among the age-range candidates, then the first candidate, then the
smallest-age-difference search. -/
def fallbackBestMatch (age : ℚ) (g : Gender) : Option AvatarDatum :=
  match (fallbackCandidates age g).find? (fun c => c.gender == g) with
  | some b => some b
  | none =>
    match (fallbackCandidates age g).head? with
    | some b => some b
    | none => bestByAgeDiff age g

/-- findBestFallback, src/services/geminiService.ts lines 422-460: returns
the idle and talking video ids of the best matching avatar, or the
absolute fallback pair of nulls when no avatar matched. -/
def findBestFallback (age : ℚ) (g : Gender) : Option String × Option String :=
  match fallbackBestMatch age g with
  | some b => (some b.idle, some b.talking)
  | none => (none, none)

/-- Helper: the age-difference step keeps the accumulator populated. -/
theorem fallbackStep_isSome (age : ℚ) (g : Gender) (acc : Option (ℚ × AvatarDatum))
    (a : AvatarDatum) (h : acc.isSome = true) : (fallbackStep age g acc a).isSome = true := by
  rcases acc with _ | m
  · simp at h
  · unfold fallbackStep
    split
    · dsimp only
      split <;> rfl
    · rfl

/-- Helper: the age-difference step populates the accumulator on any
gender-admissible avatar. -/
theorem fallbackStep_isSome_of_adm (age : ℚ) (g : Gender) (acc : Option (ℚ × AvatarDatum))
    (a : AvatarDatum) (h : genderAdmissible g a.gender = true) :
    (fallbackStep age g acc a).isSome = true := by
  unfold fallbackStep
  rw [if_pos h]
  rcases acc with _ | m
  · rfl
  · dsimp only
    split <;> rfl

/-- Helper: folding the age-difference step keeps a populated accumulator
populated. -/
theorem fallbackFold_isSome (age : ℚ) (g : Gender) :
    ∀ (l : List AvatarDatum) (acc : Option (ℚ × AvatarDatum)), acc.isSome = true →
      (l.foldl (fallbackStep age g) acc).isSome = true := by
  intro l
  induction l with
  | nil => intro acc h; simpa using h
  | cons a t ih =>
    intro acc h
    exact ih (fallbackStep age g acc a) (fallbackStep_isSome age g acc a h)

/-- Helper: folding the age-difference step over a list holding a
gender-admissible avatar yields a populated accumulator. -/
theorem fallbackFold_isSome_of_mem (age : ℚ) (g : Gender) :
    ∀ (l : List AvatarDatum) (acc : Option (ℚ × AvatarDatum)) (a : AvatarDatum),
      a ∈ l → genderAdmissible g a.gender = true →
      (l.foldl (fallbackStep age g) acc).isSome = true := by
  intro l
  induction l with
  | nil => intro acc a ha; exact absurd ha (List.not_mem_nil a)
  | cons b t ih =>
    intro acc a ha hadm
    rcases List.mem_cons.mp ha with rfl | hmem
    · exact fallbackFold_isSome age g t _ (fallbackStep_isSome_of_adm age g acc a hadm)
    · exact ih (fallbackStep age g acc b) a hmem hadm

/-- Helper: for each of the three genders the table holds an admissible
avatar, so the smallest-age-difference search always succeeds. -/
theorem bestByAgeDiff_isSome (age : ℚ) (g : Gender) :
    (bestByAgeDiff age g).isSome = true := by
  unfold bestByAgeDiff
  rw [Option.isSome_map']
  cases g
  · exact fallbackFold_isSome_of_mem age Gender.male AVATAR_DATA none
      { key := "old_man", gender := Gender.male, ageLo := 60, ageHi := 99,
        idle := "68948e058d992eda26aeb7fe", talking := "68948ea4aa43dddb5c4b08a2" }
      (by simp [AVATAR_DATA]) (by decide)
  · exact fallbackFold_isSome_of_mem age Gender.female AVATAR_DATA none
      { key := "old_woman", gender := Gender.female, ageLo := 60, ageHi := 99,
        idle := "68948ea5aa43dddb5c4b08c4", talking := "68948ea7aa43dddb5c4b08d8" }
      (by simp [AVATAR_DATA]) (by decide)
  · exact fallbackFold_isSome_of_mem age Gender.other AVATAR_DATA none
      { key := "old_woman", gender := Gender.female, ageLo := 60, ageHi := 99,
        idle := "68948ea5aa43dddb5c4b08c4", talking := "68948ea7aa43dddb5c4b08d8" }
      (by simp [AVATAR_DATA]) (by decide)

/-- C10. For every age and every profile gender, findBestFallback returns
populated idle and talking video ids: the absolute null-null branch is
unreachable, because the smallest-age-difference search always finds a
gender-admissible avatar in the table. -/
theorem find_best_fallback_total (age : ℚ) (g : Gender) :
    (findBestFallback age g).1.isSome = true
    ∧ (findBestFallback age g).2.isSome = true := by
  have hbm : (fallbackBestMatch age g).isSome = true := by
    unfold fallbackBestMatch
    rcases hfind : (fallbackCandidates age g).find? (fun c => c.gender == g) with _ | b
    · simp only [hfind]
      rcases hhead : (fallbackCandidates age g).head? with _ | b
      · simp only [hhead]
        exact bestByAgeDiff_isSome age g
      · simp only [hhead, Option.isSome_some]
    · simp only [hfind, Option.isSome_some]
  rcases Option.isSome_iff_exists.mp hbm with ⟨b, hb⟩
  unfold findBestFallback
  rw [hb]
  exact ⟨rfl, rfl⟩

end Medanna
